import Mathlib

/-!
# SuiCalen — verification of the scheduled-escrow core

Shallow embedding of the repository's core components and proofs of the
specification claims about them:

* `Autopay` — the Move module `autopay::autopay`
  (src/contracts/autopay/sources/autopay.move): the escrow ledger state
  machine (`create_task`, `execute_task`, `cancel_task`, `reschedule_task`,
  `mark_task_failed`).  Move `u64` values are modelled as `Nat` (Move aborts
  a transaction on arithmetic overflow; all claims here concern values far
  below `2^64`, and the guarded subtraction in `create_task` is explicit).
  Aborts are modelled as `Except Nat` results carrying the module's abort
  code constants; `transfer::public_transfer` calls are recorded as a list
  of `Transfer` records.
* `Composer` — the settlement composer's gas-budget validation
  (getValidatedGasBudget / buildYieldWithdrawalTransaction) and the Cetus
  swap step's slippage arithmetic (applySlippageBps / appendCetusSwapStep).
  JavaScript `BigInt` arithmetic is modelled on `Int` with truncating
  division (`Int.tdiv`), which matches BigInt `/`.
* `Relayer` — the relayer's error classifier (ErrorRecovery.classifyError,
  modelling JavaScript `String.includes` as substring containment on
  character lists) and the RetryQueue timer map (a small transition system
  over an association list of task-id/timer pairs plus the set of live,
  not-yet-cleared timers).
-/

namespace Autopay

/-! ## Error constants (autopay.move) -/

def ENotReadyYet : Nat := 1
def EUnauthorized : Nat := 2
def EInsufficientFunds : Nat := 3
def EInvalidExecutionTime : Nat := 4
def EContractPaused : Nat := 5
def EInvalidStatus : Nat := 6
def EFeeTooLow : Nat := 7
def EInvalidTaskId : Nat := 8
def EClockDriftTooLarge : Nat := 9

/-! ## Task status constants -/

def STATUS_PENDING : Nat := 0
def STATUS_EXECUTED : Nat := 1
def STATUS_CANCELLED : Nat := 2
def STATUS_FAILED : Nat := 3

def MAX_CLOCK_DRIFT_MS : Nat := 5000

/-! ## Data model -/

/-- `ScheduledTask` from autopay.move.  The two `Balance<SUI>` fields are
modelled by their `u64` values; addresses are modelled as `Nat`. -/
structure ScheduledTask where
  sender : Nat
  recipient : Nat
  balance : Nat
  execute_at : Nat
  relayer_fee : Nat
  status : Nat
  attempt_count : Nat
  last_failure_reason : List Nat
  created_at : Nat
  metadata : List Nat
deriving Repr, DecidableEq

/-- `TaskRegistry` from autopay.move. -/
structure TaskRegistry where
  total_tasks_created : Nat
  total_tasks_executed : Nat
  total_tasks_cancelled : Nat
  total_tasks_failed : Nat
  total_volume : Nat
  total_fees_paid : Nat
  min_relayer_fee : Nat
  is_paused : Bool
  admin : Nat
deriving Repr, DecidableEq

/-- One `transfer::public_transfer` of a SUI coin. -/
structure Transfer where
  recipient : Nat
  amount : Nat
deriving Repr, DecidableEq

/-! ## Entry functions -/

/-- `create_task`: guards in source order (paused, execution time, minimum
fee, sufficient funds); splits the fee from the payment coin and locks the
remainder as the task balance. -/
def create_task (payment_value : Nat) (recipient : Nat) (execute_at : Nat)
    (fee_amount : Nat) (metadata : List Nat) (registry : TaskRegistry)
    (now : Nat) (sender : Nat) :
    Except Nat (ScheduledTask × TaskRegistry) :=
  if registry.is_paused then .error EContractPaused
  else if ¬ execute_at > now then .error EInvalidExecutionTime
  else if ¬ fee_amount ≥ registry.min_relayer_fee then .error EFeeTooLow
  else if ¬ payment_value > fee_amount then .error EInsufficientFunds
  else
    let amount := payment_value - fee_amount
    let task : ScheduledTask :=
      { sender := sender
        recipient := recipient
        balance := amount
        execute_at := execute_at
        relayer_fee := fee_amount
        status := STATUS_PENDING
        attempt_count := 0
        last_failure_reason := []
        created_at := now
        metadata := metadata }
    let registry' :=
      { registry with
          total_tasks_created := registry.total_tasks_created + 1
          total_volume := registry.total_volume + amount
          total_fees_paid := registry.total_fees_paid + fee_amount }
    .ok (task, registry')

/-- `execute_task`: guards in source order (paused, status, readiness);
pays the principal to the recipient and the fee to the caller, then deletes
the task (the task value is consumed, so no task is returned). -/
def execute_task (task : ScheduledTask) (registry : TaskRegistry)
    (now : Nat) (caller : Nat) :
    Except Nat (TaskRegistry × List Transfer) :=
  if registry.is_paused then .error EContractPaused
  else if ¬ task.status = STATUS_PENDING then .error EInvalidStatus
  else if ¬ now ≥ task.execute_at then .error ENotReadyYet
  else
    let registry' :=
      { registry with total_tasks_executed := registry.total_tasks_executed + 1 }
    .ok (registry',
         [ { recipient := task.recipient, amount := task.balance },
           { recipient := caller, amount := task.relayer_fee } ])

/-- `cancel_task`: guards in source order (authorization, status); joins the
relayer fee back into the balance and refunds the single coin to the sender,
then deletes the task. -/
def cancel_task (task : ScheduledTask) (registry : TaskRegistry)
    (now : Nat) (caller : Nat) :
    Except Nat (TaskRegistry × List Transfer) :=
  if ¬ caller = task.sender then .error EUnauthorized
  else if ¬ task.status = STATUS_PENDING then .error EInvalidStatus
  else
    let registry' :=
      { registry with total_tasks_cancelled := registry.total_tasks_cancelled + 1 }
    .ok (registry',
         [ { recipient := task.sender, amount := task.balance + task.relayer_fee } ])

/-- `reschedule_task`: guards in source order (paused, sender-or-admin,
execution time); updates `execute_at` and clears the failure reason.  Note
that it does not touch `status`. -/
def reschedule_task (task : ScheduledTask) (new_execute_at : Nat)
    (registry : TaskRegistry) (now : Nat) (caller : Nat) :
    Except Nat (ScheduledTask × TaskRegistry) :=
  if registry.is_paused then .error EContractPaused
  else if ¬ (caller = task.sender ∨ caller = registry.admin) then .error EUnauthorized
  else if ¬ new_execute_at > now then .error EInvalidExecutionTime
  else
    .ok ({ task with execute_at := new_execute_at, last_failure_reason := [] },
         registry)

/-- `mark_task_failed`: the only guard is the status check; sets the status
to FAILED, bumps the attempt count, stores an empty placeholder reason and
bumps the registry's failed counter.  Neither the caller nor the paused flag
is inspected. -/
def mark_task_failed (task : ScheduledTask) (registry : TaskRegistry)
    (reason : List Nat) (now : Nat) (caller : Nat) :
    Except Nat (ScheduledTask × TaskRegistry) :=
  if ¬ task.status = STATUS_PENDING then .error EInvalidStatus
  else
    .ok ({ task with
             status := STATUS_FAILED
             attempt_count := task.attempt_count + 1
             last_failure_reason := [] },
         { registry with total_tasks_failed := registry.total_tasks_failed + 1 })

/-! ## Shared-object layer

On Sui, `execute_task` and `cancel_task` consume the shared `ScheduledTask`
object; a later transaction naming the same object id fails at input
resolution because the object no longer exists.  We model the store for one
task id as an `Option ScheduledTask`. -/

inductive ExecError where
  /-- Abort inside the Move module, carrying the abort code. -/
  | moveAbort (code : Nat)
  /-- The shared object was deleted: the transaction cannot even start. -/
  | objectNotFound
deriving Repr, DecidableEq

/-- `execute_task` against the shared-object store for one task id. -/
def execute_task_shared (store : Option ScheduledTask) (registry : TaskRegistry)
    (now : Nat) (caller : Nat) :
    Except ExecError (Option ScheduledTask × TaskRegistry × List Transfer) :=
  match store with
  | none => .error .objectNotFound
  | some task =>
    match execute_task task registry now caller with
    | .error code => .error (.moveAbort code)
    | .ok (registry', transfers) => .ok (none, registry', transfers)

/-- `cancel_task` against the shared-object store for one task id. -/
def cancel_task_shared (store : Option ScheduledTask) (registry : TaskRegistry)
    (now : Nat) (caller : Nat) :
    Except ExecError (Option ScheduledTask × TaskRegistry × List Transfer) :=
  match store with
  | none => .error .objectNotFound
  | some task =>
    match cancel_task task registry now caller with
    | .error code => .error (.moveAbort code)
    | .ok (registry', transfers) => .ok (none, registry', transfers)

/-- Total amount transferred to a given address by a list of transfers. -/
def payoutTo (addr : Nat) (transfers : List Transfer) : Nat :=
  (transfers.filter (fun t => t.recipient == addr)).foldr (fun t acc => t.amount + acc) 0

end Autopay

namespace Composer

/-! ## Gas-budget validation (yieldExecutionService, src/unnamed/part_010) -/

def MAX_ALLOWED_GAS_BUDGET : Int := 50000000
def MIN_GAS_BUDGET : Int := 5000000
def GAS_BUDGET_DEFAULT : Int := 20000000

/-- `getEnvInt('GAS_BUDGET_LIMIT', 20_000_000)`: the configured value, or the
default when the variable is unset or unparsable. -/
def configuredGasBudget (env : Option Int) : Int :=
  env.getD GAS_BUDGET_DEFAULT

/-- `getValidatedGasBudget`: clamp the configured budget into
`[MIN_GAS_BUDGET, MAX_ALLOWED_GAS_BUDGET]`. -/
def getValidatedGasBudget (configured : Int) : Int :=
  if configured > MAX_ALLOWED_GAS_BUDGET then MAX_ALLOWED_GAS_BUDGET
  else if configured < MIN_GAS_BUDGET then MIN_GAS_BUDGET
  else configured

/-! ## Cetus swap step (swapPTBBuilder, src/relayer/src/...) -/

/-- `applySlippageBps`: reject a slippage outside `[0, 10000]` basis points,
otherwise return `amountOut * (10000 - slippageBps) / 10000` in exact BigInt
arithmetic (truncating division). -/
def applySlippageBps (amountOut : Int) (slippageBps : Int) : Except String Int :=
  if slippageBps < 0 ∨ slippageBps > 10000 then
    .error "Invalid slippageBps"
  else
    .ok ((amountOut * (10000 - slippageBps)).tdiv 10000)

/-- The swap instruction's parameters (`swapParams` in the source):
`by_amount_in` is always true, `amount_limit` carries the minimum output. -/
structure SwapParams where
  amountIn : Int
  amountLimit : Int
  a2b : Bool
deriving Repr, DecidableEq

/-- One instruction appended to the programmable transaction under
construction. -/
inductive PTBStep where
  | withdraw (amount : Int)
  | swap (params : SwapParams)
  | transferObjects (coinCount : Nat) (target : Nat)
deriving Repr, DecidableEq

/-- `appendCetusSwapStep`, arithmetic path: the preswap quote is the
`estimatedOut` input (a network call in the source); the slippage defaults
to 100 bps when the stored config has none; `applySlippageBps` and the
`minOut <= 0` check both run before any swap instruction is appended. -/
def appendCetusSwapStep (steps : List PTBStep) (estimatedOut : Int)
    (slippageBpsCfg : Option Int) (amountIn : Int) (a2b : Bool) :
    Except String (List PTBStep) :=
  let slippageBps := slippageBpsCfg.getD 100
  match applySlippageBps estimatedOut slippageBps with
  | .error e => .error e
  | .ok minOut =>
    if minOut ≤ 0 then .error "Computed minOut is <= 0"
    else .ok (steps ++ [.swap { amountIn := amountIn, amountLimit := minOut, a2b := a2b }])

/-- The transaction assembled by `buildYieldWithdrawalTransaction`. -/
structure BuiltTx where
  steps : List PTBStep
  gasBudget : Int
deriving Repr, DecidableEq

/-- `buildYieldWithdrawalTransaction`: withdraw step, optional Cetus swap
step (config as `(estimatedOut, slippageBps?, a2b)`), transfer of every
produced coin to the target, then `tx.setGasBudget(getValidatedGasBudget())`.
`swapOutputCount` stands for the number of coins the swap builder returns. -/
def buildYieldWithdrawalTransaction (amount : Int) (target : Nat)
    (swapCfg : Option (Int × Option Int × Bool)) (swapOutputCount : Nat)
    (configured : Int) : Except String BuiltTx :=
  let steps0 : List PTBStep := [.withdraw amount]
  match swapCfg with
  | none =>
    .ok { steps := steps0 ++ [.transferObjects 1 target],
          gasBudget := getValidatedGasBudget configured }
  | some (estimatedOut, slip, a2b) =>
    match appendCetusSwapStep steps0 estimatedOut slip amount a2b with
    | .error e => .error e
    | .ok steps1 =>
      .ok { steps := steps1 ++ [.transferObjects swapOutputCount target],
            gasBudget := getValidatedGasBudget configured }

end Composer

namespace Relayer

/-! ## Error classifier (ErrorRecovery.classifyError, src/unnamed/part_016) -/

inductive ErrorKind where
  | insufficientGas
  | network
  | objectNotFound
  | timeNotReady
  | contractPaused
  | unknown
deriving Repr, DecidableEq

/-- JavaScript `hay.includes(needle)`: substring containment. -/
def includes (hay : String) (needle : String) : Bool :=
  hay.toList.tails.any (fun t => needle.toList.isPrefixOf t)

/-- `ErrorRecovery.classifyError`: first matching pattern wins, in source
order. -/
def classifyError (message : String) : ErrorKind :=
  if includes message "Insufficient" then .insufficientGas
  else if includes message "network" || includes message "Network" then .network
  else if includes message "not found" || includes message "object not found" then
    .objectNotFound
  else if includes message "NotReady" || includes message "NotReadyYet" then
    .timeNotReady
  else if includes message "paused" || includes message "ContractPaused" then
    .contractPaused
  else .unknown

/-! ## RetryQueue (src/unnamed/part_017)

The `Map<string, NodeJS.Timeout>` is modelled as an association list from
task id to a timer identifier; timer identifiers are allocated from a
counter, and `live` records the timers that have been created by
`setTimeout` and not yet cancelled by `clearTimeout` (timer expiry is not an
operation of the claims considered here). -/

structure QueueState where
  timers : List (String × Nat)
  live : List Nat
  nextTimer : Nat
deriving Repr, DecidableEq

def initState : QueueState := { timers := [], live := [], nextTimer := 0 }

/-- `this.queue.get(key)`. -/
def findTimer (timers : List (String × Nat)) (k : String) : Option Nat :=
  (timers.find? (fun p => p.1 == k)).map (fun p => p.2)

/-- `scheduleRetry`: clear any existing timer for the task id, start a fresh
timer, store it under the task id (`Map.set` replaces the old binding). -/
def scheduleRetry (s : QueueState) (taskId : String) : QueueState :=
  let cleared := match findTimer s.timers taskId with
    | some t => s.live.erase t
    | none => s.live
  { timers := (taskId, s.nextTimer) :: s.timers.filter (fun p => p.1 != taskId)
    live := s.nextTimer :: cleared
    nextTimer := s.nextTimer + 1 }

/-- `cancelRetry`: clear and drop the timer for the task id, if any. -/
def cancelRetry (s : QueueState) (taskId : String) : QueueState :=
  match findTimer s.timers taskId with
  | some t =>
    { s with
        live := s.live.erase t
        timers := s.timers.filter (fun p => p.1 != taskId) }
  | none => s

inductive QueueOp where
  | schedule (taskId : String)
  | cancel (taskId : String)
deriving Repr, DecidableEq

def applyOp (s : QueueState) (op : QueueOp) : QueueState :=
  match op with
  | .schedule k => scheduleRetry s k
  | .cancel k => cancelRetry s k

def runOps (ops : List QueueOp) : QueueState := ops.foldl applyOp initState

/-- The pending (stored and still live) timers for one task id. -/
def pendingTimers (s : QueueState) (taskId : String) : List Nat :=
  (s.timers.filter (fun p => p.1 == taskId && s.live.contains p.2)).map (fun p => p.2)

/-- Well-formedness of a queue state: stored keys are distinct (it is a
map), every stored or live timer identifier was allocated below the
counter, and live timers are distinct. -/
structure QueueInv (s : QueueState) : Prop where
  keysNodup : (s.timers.map Prod.fst).Nodup
  timersLt : ∀ p ∈ s.timers, p.2 < s.nextTimer
  liveLt : ∀ t ∈ s.live, t < s.nextTimer
  liveNodup : s.live.Nodup

end Relayer

/-! ## Concrete fixtures shared by witnesses and counterexamples -/

/-- A registry with the deployment defaults (`min_relayer_fee` 0.001 SUI,
unpaused). -/
def sampleRegistry : Autopay.TaskRegistry :=
  { total_tasks_created := 0, total_tasks_executed := 0,
    total_tasks_cancelled := 0, total_tasks_failed := 0,
    total_volume := 0, total_fees_paid := 0, min_relayer_fee := 1000000,
    is_paused := false, admin := 1 }

/-- `sampleRegistry` with the paused flag set. -/
def samplePausedRegistry : Autopay.TaskRegistry :=
  { sampleRegistry with is_paused := true }

/-- The Pending task produced by
`create_task(amount=1_000_000_000, fee=1_000_000, execute_at=3_600_000)`
from sender 10 to recipient 20 at time 0. -/
def sampleTask : Autopay.ScheduledTask :=
  { sender := 10, recipient := 20, balance := 999000000,
    execute_at := 3600000, relayer_fee := 1000000,
    status := Autopay.STATUS_PENDING, attempt_count := 0,
    last_failure_reason := [], created_at := 0, metadata := [] }

example :
    Autopay.create_task 1000000000 20 3600000 1000000 [] sampleRegistry 0 10 =
    .ok (sampleTask,
         { sampleRegistry with
             total_tasks_created := 1, total_volume := 999000000,
             total_fees_paid := 1000000 }) := rfl

/-! ## Claim C3 — create_task -/

/-- C3: with an unpaused registry, `execute_at` strictly in the future,
`fee_amount` at least the minimum relayer fee and a payment strictly larger
than the fee, `create_task` succeeds with a Pending task whose escrowed
balance is the payment minus the fee, and bumps `total_tasks_created` by
exactly 1. -/
theorem create_task_pending_escrow
    (payment_value recipient execute_at fee_amount : Nat) (metadata : List Nat)
    (registry : Autopay.TaskRegistry) (now sender : Nat)
    (hpause : registry.is_paused = false)
    (htime : execute_at > now)
    (hfee : fee_amount ≥ registry.min_relayer_fee)
    (hfunds : payment_value > fee_amount) :
    ∃ task registry',
      Autopay.create_task payment_value recipient execute_at fee_amount
        metadata registry now sender = .ok (task, registry') ∧
      task.status = Autopay.STATUS_PENDING ∧
      task.balance = payment_value - fee_amount ∧
      registry'.total_tasks_created = registry.total_tasks_created + 1 := by
  have hred : Autopay.create_task payment_value recipient execute_at fee_amount
      metadata registry now sender =
      .ok ({ sender := sender, recipient := recipient,
             balance := payment_value - fee_amount, execute_at := execute_at,
             relayer_fee := fee_amount, status := Autopay.STATUS_PENDING,
             attempt_count := 0, last_failure_reason := [], created_at := now,
             metadata := metadata },
           { registry with
               total_tasks_created := registry.total_tasks_created + 1
               total_volume := registry.total_volume + (payment_value - fee_amount)
               total_fees_paid := registry.total_fees_paid + fee_amount }) := by
    simp [Autopay.create_task, hpause, htime, hfee, hfunds]
  exact ⟨_, _, hred, rfl, rfl, rfl⟩

/-- C3 witness: the spec's concrete instance — payment 1 SUI, fee 0.001 SUI,
escrowed balance 0.999 SUI. -/
theorem create_task_pending_escrow_witness :
    ∃ task registry',
      Autopay.create_task 1000000000 20 3600000 1000000 [] sampleRegistry 0 10 =
        .ok (task, registry') ∧
      task.status = Autopay.STATUS_PENDING ∧
      task.balance = 1000000000 - 1000000 ∧
      registry'.total_tasks_created = sampleRegistry.total_tasks_created + 1 :=
  create_task_pending_escrow 1000000000 20 3600000 1000000 [] sampleRegistry 0 10
    rfl (by decide) (by decide) (by decide)

/-! ## Claim C2 — execute_task guards, payout and at-most-once -/

/-- A successful `execute_task` implies every guard passed and pins down the
updated registry and the two transfers. -/
theorem execute_task_ok_elim {task : Autopay.ScheduledTask}
    {registry : Autopay.TaskRegistry} {now caller : Nat}
    {out : Autopay.TaskRegistry × List Autopay.Transfer}
    (h : Autopay.execute_task task registry now caller = .ok out) :
    registry.is_paused = false ∧ task.status = Autopay.STATUS_PENDING ∧
    task.execute_at ≤ now ∧
    out = ({ registry with
               total_tasks_executed := registry.total_tasks_executed + 1 },
           [{ recipient := task.recipient, amount := task.balance },
            { recipient := caller, amount := task.relayer_fee }]) := by
  unfold Autopay.execute_task at h
  by_cases hpause : registry.is_paused
  · simp [hpause] at h
  · by_cases hstatus : task.status = Autopay.STATUS_PENDING
    · by_cases hready : now ≥ task.execute_at
      · simp [hpause, hstatus, hready] at h
        refine ⟨by simp [hpause], hstatus, hready, ?_⟩
        have hp : registry.is_paused = false := by simpa using hpause
        rw [hp]
        exact h.symm
      · simp [hpause, hstatus, hready] at h
    · simp [hpause, hstatus] at h

/-- C2: on an unpaused registry, `execute_task` before `execute_at` on a
Pending task aborts with `ENotReadyYet` and on a non-Pending task aborts
with `EInvalidStatus`; a successful execution transfers exactly the
principal to the recipient and the fee to the caller, bumps the executed
counter and deletes the shared task object, after which every further
`execute_task` on the same task id fails without producing any transfer. -/
theorem execute_task_guards_and_at_most_once :
    (∀ (task : Autopay.ScheduledTask) (registry : Autopay.TaskRegistry) (now caller : Nat),
        registry.is_paused = false →
        task.status = Autopay.STATUS_PENDING →
        now < task.execute_at →
        Autopay.execute_task task registry now caller = .error Autopay.ENotReadyYet) ∧
    (∀ (task : Autopay.ScheduledTask) (registry : Autopay.TaskRegistry) (now caller : Nat),
        registry.is_paused = false →
        task.status ≠ Autopay.STATUS_PENDING →
        Autopay.execute_task task registry now caller = .error Autopay.EInvalidStatus) ∧
    (∀ (task : Autopay.ScheduledTask) (registry registry' : Autopay.TaskRegistry)
        (now caller : Nat) (store' : Option Autopay.ScheduledTask)
        (transfers : List Autopay.Transfer),
        Autopay.execute_task_shared (some task) registry now caller =
          .ok (store', registry', transfers) →
        store' = none ∧
        transfers = [{ recipient := task.recipient, amount := task.balance },
                     { recipient := caller, amount := task.relayer_fee }] ∧
        registry'.total_tasks_executed = registry.total_tasks_executed + 1 ∧
        (∀ (registry2 : Autopay.TaskRegistry) (now2 caller2 : Nat),
          Autopay.execute_task_shared store' registry2 now2 caller2 =
            .error .objectNotFound)) := by
  refine ⟨?_, ?_, ?_⟩
  · intro task registry now caller hpause hstatus hlt
    simp [Autopay.execute_task, hpause, hstatus, Nat.not_le.mpr hlt]
  · intro task registry now caller hpause hstatus
    simp [Autopay.execute_task, hpause, hstatus]
  · intro task registry registry' now caller store' transfers hok
    cases hexec : Autopay.execute_task task registry now caller with
    | error code => simp [Autopay.execute_task_shared, hexec] at hok
    | ok out =>
      obtain ⟨reg1, ts1⟩ := out
      obtain ⟨-, -, -, hout⟩ := execute_task_ok_elim hexec
      obtain ⟨h4, h5⟩ := Prod.mk.injEq .. ▸ hout
      simp only [Autopay.execute_task_shared, hexec] at hok
      cases hok
      exact ⟨rfl, h5, by rw [h4], fun registry2 now2 caller2 => rfl⟩

/-- C2 witness: at the sample task, an early call (t = 1000) aborts
NotReadyYet, an executed-status copy aborts InvalidStatus, and the
successful call at t = 3_600_000 pays 0.999 SUI to recipient 20, the fee to
caller 99, and consumes the object so that a repeat call fails. -/
theorem execute_task_guards_and_at_most_once_witness :
    Autopay.execute_task sampleTask sampleRegistry 1000 99 =
      .error Autopay.ENotReadyYet ∧
    Autopay.execute_task { sampleTask with status := Autopay.STATUS_EXECUTED }
      sampleRegistry 3600000 99 = .error Autopay.EInvalidStatus ∧
    (none : Option Autopay.ScheduledTask) = none ∧
    Autopay.execute_task_shared none sampleRegistry 3700000 99 =
      .error .objectNotFound := by
  obtain ⟨h1, h2, h3⟩ := execute_task_guards_and_at_most_once
  have hrun : Autopay.execute_task_shared (some sampleTask) sampleRegistry 3600000 99 =
      .ok (none,
           { sampleRegistry with total_tasks_executed := 1 },
           [{ recipient := 20, amount := 999000000 },
            { recipient := 99, amount := 1000000 }]) := rfl
  obtain ⟨hnone, _, _, hsecond⟩ := h3 sampleTask sampleRegistry
    { sampleRegistry with total_tasks_executed := 1 } 3600000 99 none
    [{ recipient := 20, amount := 999000000 },
     { recipient := 99, amount := 1000000 }] hrun
  exact ⟨h1 sampleTask sampleRegistry 1000 99 rfl rfl (by decide),
         h2 { sampleTask with status := Autopay.STATUS_EXECUTED } sampleRegistry
           3600000 99 rfl (by decide),
         hnone, hsecond sampleRegistry 3700000 99⟩

/-! ## Claim C4 — cancel_task authorization and refund -/

/-- C4: `cancel_task` by any caller other than the task's sender aborts with
`EUnauthorized`; by the sender on a Pending task it refunds exactly
balance + fee to the sender as one coin, deletes the shared task object and
bumps `total_tasks_cancelled` by 1. -/
theorem cancel_task_auth_refund :
    (∀ (task : Autopay.ScheduledTask) (registry : Autopay.TaskRegistry) (now caller : Nat),
        caller ≠ task.sender →
        Autopay.cancel_task task registry now caller = .error Autopay.EUnauthorized) ∧
    (∀ (task : Autopay.ScheduledTask) (registry : Autopay.TaskRegistry) (now : Nat),
        task.status = Autopay.STATUS_PENDING →
        Autopay.cancel_task_shared (some task) registry now task.sender =
          .ok (none,
               { registry with
                   total_tasks_cancelled := registry.total_tasks_cancelled + 1 },
               [{ recipient := task.sender,
                  amount := task.balance + task.relayer_fee }])) := by
  constructor
  · intro task registry now caller hne
    simp [Autopay.cancel_task, hne]
  · intro task registry now hstatus
    simp [Autopay.cancel_task_shared, Autopay.cancel_task, hstatus]

/-- C4 witness: caller 11 on the sample task (sender 10) is rejected;
sender 10 cancelling recovers 999_000_000 + 1_000_000 in one transfer and
the object is gone. -/
theorem cancel_task_auth_refund_witness :
    Autopay.cancel_task sampleTask sampleRegistry 1000 11 =
      .error Autopay.EUnauthorized ∧
    Autopay.cancel_task_shared (some sampleTask) sampleRegistry 1000
      sampleTask.sender =
      .ok (none,
           { sampleRegistry with
               total_tasks_cancelled := sampleRegistry.total_tasks_cancelled + 1 },
           [{ recipient := sampleTask.sender,
              amount := sampleTask.balance + sampleTask.relayer_fee }]) :=
  ⟨cancel_task_auth_refund.1 sampleTask sampleRegistry 1000 11 (by decide),
   cancel_task_auth_refund.2 sampleTask sampleRegistry 1000 rfl⟩

/-! ## Claim C10 — cancel_task is pause-independent -/

/-- C10: `cancel_task` can never abort with `EContractPaused`, and a Pending
task's sender can cancel and recover balance + fee even while the registry
is paused. -/
theorem cancel_task_never_paused :
    (∀ (task : Autopay.ScheduledTask) (registry : Autopay.TaskRegistry) (now caller : Nat),
        Autopay.cancel_task task registry now caller ≠ .error Autopay.EContractPaused) ∧
    (∀ (task : Autopay.ScheduledTask) (registry : Autopay.TaskRegistry) (now : Nat),
        registry.is_paused = true →
        task.status = Autopay.STATUS_PENDING →
        Autopay.cancel_task_shared (some task) registry now task.sender =
          .ok (none,
               { registry with
                   total_tasks_cancelled := registry.total_tasks_cancelled + 1 },
               [{ recipient := task.sender,
                  amount := task.balance + task.relayer_fee }])) := by
  constructor
  · intro task registry now caller h
    unfold Autopay.cancel_task at h
    split_ifs at h <;>
      simp [Autopay.EUnauthorized, Autopay.EInvalidStatus,
        Autopay.EContractPaused] at h
  · intro task registry now hpause hstatus
    simp [Autopay.cancel_task_shared, Autopay.cancel_task, hstatus]

/-- C10 witness: with the paused registry, sender 10 still cancels the
sample Pending task and recovers the full 1_000_000_000. -/
theorem cancel_task_never_paused_witness :
    Autopay.cancel_task sampleTask samplePausedRegistry 1000 10 ≠
      .error Autopay.EContractPaused ∧
    Autopay.cancel_task_shared (some sampleTask) samplePausedRegistry 1000
      sampleTask.sender =
      .ok (none,
           { samplePausedRegistry with
               total_tasks_cancelled :=
                 samplePausedRegistry.total_tasks_cancelled + 1 },
           [{ recipient := sampleTask.sender,
              amount := sampleTask.balance + sampleTask.relayer_fee }]) :=
  ⟨cancel_task_never_paused.1 sampleTask samplePausedRegistry 1000 10,
   cancel_task_never_paused.2 sampleTask samplePausedRegistry 1000 rfl rfl⟩

/-! ## Claim C7 — mark_task_failed checks neither caller nor pause -/

/-- C7: `mark_task_failed` checks only the status: for every caller and
every registry (paused or not) it succeeds iff the task is Pending, aborts
with `EInvalidStatus` iff not, and in particular goes through for an
arbitrary non-admin caller on a paused registry. -/
theorem mark_task_failed_no_auth_no_pause :
    ∀ (task : Autopay.ScheduledTask) (registry : Autopay.TaskRegistry)
      (reason : List Nat) (now caller : Nat),
      ((∃ out, Autopay.mark_task_failed task registry reason now caller = .ok out) ↔
        task.status = Autopay.STATUS_PENDING) ∧
      (task.status ≠ Autopay.STATUS_PENDING →
        Autopay.mark_task_failed task registry reason now caller =
          .error Autopay.EInvalidStatus) ∧
      (registry.is_paused = true → task.status = Autopay.STATUS_PENDING →
        Autopay.mark_task_failed task registry reason now caller =
          .ok ({ task with
                   status := Autopay.STATUS_FAILED
                   attempt_count := task.attempt_count + 1
                   last_failure_reason := [] },
               { registry with
                   total_tasks_failed := registry.total_tasks_failed + 1 })) := by
  intro task registry reason now caller
  by_cases hstatus : task.status = Autopay.STATUS_PENDING
  · refine ⟨⟨fun _ => hstatus, fun _ => ?_⟩, fun hne => absurd hstatus hne,
      fun _ _ => ?_⟩
    · exact ⟨({ task with
                  status := Autopay.STATUS_FAILED
                  attempt_count := task.attempt_count + 1
                  last_failure_reason := [] },
              { registry with
                  total_tasks_failed := registry.total_tasks_failed + 1 }),
             by simp [Autopay.mark_task_failed, hstatus]⟩
    · simp [Autopay.mark_task_failed, hstatus]
  · refine ⟨⟨?_, fun hs => absurd hs hstatus⟩, fun _ => ?_,
      fun _ hs => absurd hs hstatus⟩
    · rintro ⟨out, hout⟩
      simp [Autopay.mark_task_failed, hstatus] at hout
    · simp [Autopay.mark_task_failed, hstatus]

/-- C7 witness: the arbitrary caller 99 (neither admin 1 nor sender 10)
marks the sample Pending task failed while the registry is paused; an
executed-status copy is rejected with InvalidStatus. -/
theorem mark_task_failed_no_auth_no_pause_witness :
    (∃ out, Autopay.mark_task_failed sampleTask samplePausedRegistry [7] 1000 99 =
      .ok out) ∧
    Autopay.mark_task_failed { sampleTask with status := Autopay.STATUS_EXECUTED }
      samplePausedRegistry [7] 1000 99 = .error Autopay.EInvalidStatus :=
  ⟨((mark_task_failed_no_auth_no_pause sampleTask samplePausedRegistry
      [7] 1000 99).1).mpr rfl,
   ((mark_task_failed_no_auth_no_pause
      { sampleTask with status := Autopay.STATUS_EXECUTED }
      samplePausedRegistry [7] 1000 99).2).1 (by decide)⟩

/-! ## Claim C1 — mark_task_failed keeps funds but makes the task
unrecoverable

The funds-retention and counter parts of the claim hold, but recovery does
not: `mark_task_failed` sets the status to FAILED, `cancel_task` and
`execute_task` both require PENDING, and `reschedule_task` never resets the
status, so after a failure the sender's cancellation aborts with
`EInvalidStatus` and execution after a reschedule aborts with
`EInvalidStatus` as well — the escrow is locked forever. -/

/-- C1 evaluation at the failing input: marking the sample Pending task
failed keeps balance and fee and bumps both counters, but the subsequent
`cancel_task` by the sender aborts with InvalidStatus, and after a
successful `reschedule_task` by the sender, `execute_task` still aborts
with InvalidStatus. -/
theorem mark_task_failed_locks_escrow :
    ∃ task1 registry1,
      Autopay.mark_task_failed sampleTask sampleRegistry [77] 1000 99 =
        .ok (task1, registry1) ∧
      task1.balance = sampleTask.balance ∧
      task1.relayer_fee = sampleTask.relayer_fee ∧
      task1.attempt_count = sampleTask.attempt_count + 1 ∧
      registry1.total_tasks_failed = sampleRegistry.total_tasks_failed + 1 ∧
      Autopay.cancel_task task1 registry1 2000 sampleTask.sender =
        .error Autopay.EInvalidStatus ∧
      ∃ task2 registry2,
        Autopay.reschedule_task task1 7200000 registry1 2000 sampleTask.sender =
          .ok (task2, registry2) ∧
        Autopay.execute_task task2 registry2 7300000 99 =
          .error Autopay.EInvalidStatus := by
  refine ⟨_, _, rfl, rfl, rfl, rfl, rfl, rfl, _, _, rfl, rfl⟩

/-! ## Claim C5 — gas budget clamp -/

/-- C5: `getValidatedGasBudget` always lands in
`[MIN_GAS_BUDGET, MAX_ALLOWED_GAS_BUDGET]`: values above MAX clamp to MAX,
below MIN clamp to MIN, in-window values pass through; and every
transaction the composer builds carries exactly this clamped budget. -/
theorem gas_budget_clamped :
    (∀ configured : Int,
        Composer.MIN_GAS_BUDGET ≤ Composer.getValidatedGasBudget configured ∧
        Composer.getValidatedGasBudget configured ≤ Composer.MAX_ALLOWED_GAS_BUDGET) ∧
    (∀ configured : Int, configured > Composer.MAX_ALLOWED_GAS_BUDGET →
        Composer.getValidatedGasBudget configured = Composer.MAX_ALLOWED_GAS_BUDGET) ∧
    (∀ configured : Int, configured < Composer.MIN_GAS_BUDGET →
        Composer.getValidatedGasBudget configured = Composer.MIN_GAS_BUDGET) ∧
    (∀ configured : Int,
        Composer.MIN_GAS_BUDGET ≤ configured →
        configured ≤ Composer.MAX_ALLOWED_GAS_BUDGET →
        Composer.getValidatedGasBudget configured = configured) ∧
    (∀ (amount : Int) (target : Nat) (swapCfg : Option (Int × Option Int × Bool))
        (swapOutputCount : Nat) (configured : Int) (tx : Composer.BuiltTx),
        Composer.buildYieldWithdrawalTransaction amount target swapCfg
          swapOutputCount configured = .ok tx →
        tx.gasBudget = Composer.getValidatedGasBudget configured) := by
  refine ⟨?_, ?_, ?_, ?_, ?_⟩
  · intro c
    unfold Composer.getValidatedGasBudget Composer.MIN_GAS_BUDGET
      Composer.MAX_ALLOWED_GAS_BUDGET
    split_ifs <;> omega
  · intro c h
    simp only [Composer.getValidatedGasBudget, Composer.MIN_GAS_BUDGET,
      Composer.MAX_ALLOWED_GAS_BUDGET] at h ⊢
    split_ifs <;> omega
  · intro c h
    simp only [Composer.getValidatedGasBudget, Composer.MIN_GAS_BUDGET,
      Composer.MAX_ALLOWED_GAS_BUDGET] at h ⊢
    split_ifs <;> omega
  · intro c h1 h2
    simp only [Composer.getValidatedGasBudget, Composer.MIN_GAS_BUDGET,
      Composer.MAX_ALLOWED_GAS_BUDGET] at h1 h2 ⊢
    split_ifs <;> omega
  · intro amount target swapCfg swapOutputCount c tx h
    unfold Composer.buildYieldWithdrawalTransaction at h
    cases swapCfg with
    | none =>
      cases h
      rfl
    | some cfg =>
      obtain ⟨est, slip, a2b⟩ := cfg
      cases happ : Composer.appendCetusSwapStep
          [Composer.PTBStep.withdraw amount] est slip amount a2b with
      | error e => simp [happ] at h
      | ok steps1 =>
        simp only [happ] at h
        cases h
        rfl

/-- C5 witness: configured budgets 60_000_000, 1_000_000 and 20_000_000
resolve to 50_000_000, 5_000_000 and 20_000_000, and a no-swap build with a
60_000_000 configuration carries the clamped 50_000_000 budget. -/
theorem gas_budget_clamped_witness :
    Composer.getValidatedGasBudget 60000000 = Composer.MAX_ALLOWED_GAS_BUDGET ∧
    Composer.getValidatedGasBudget 1000000 = Composer.MIN_GAS_BUDGET ∧
    Composer.getValidatedGasBudget 20000000 = 20000000 ∧
    ({ steps := [Composer.PTBStep.withdraw 500, Composer.PTBStep.transferObjects 1 20],
       gasBudget := Composer.getValidatedGasBudget 60000000 } : Composer.BuiltTx).gasBudget =
      Composer.getValidatedGasBudget 60000000 :=
  ⟨gas_budget_clamped.2.1 60000000 (by decide),
   gas_budget_clamped.2.2.1 1000000 (by decide),
   gas_budget_clamped.2.2.2.1 20000000 (by decide) (by decide),
   gas_budget_clamped.2.2.2.2 500 20 none 1 60000000
     { steps := [Composer.PTBStep.withdraw 500, Composer.PTBStep.transferObjects 1 20],
       gasBudget := Composer.getValidatedGasBudget 60000000 } rfl⟩

/-! ## Claim C6 — swap minimum-output bound -/

/-- C6: the swap step computes
`minOut = estimatedOut * (10000 - slippageBps) / 10000` in exact integer
arithmetic, appends the swap instruction constrained by that bound, and
fails without appending anything when the slippage is outside `[0, 10000]`
basis points or the computed bound is not positive. -/
theorem swap_min_out_spec :
    (∀ (steps : List Composer.PTBStep) (estimatedOut slippageBps amountIn : Int)
        (a2b : Bool),
        slippageBps < 0 ∨ slippageBps > 10000 →
        Composer.appendCetusSwapStep steps estimatedOut (some slippageBps)
          amountIn a2b = .error "Invalid slippageBps") ∧
    (∀ (steps : List Composer.PTBStep) (estimatedOut slippageBps amountIn : Int)
        (a2b : Bool),
        0 ≤ slippageBps → slippageBps ≤ 10000 →
        (estimatedOut * (10000 - slippageBps)).tdiv 10000 ≤ 0 →
        Composer.appendCetusSwapStep steps estimatedOut (some slippageBps)
          amountIn a2b = .error "Computed minOut is <= 0") ∧
    (∀ (steps : List Composer.PTBStep) (estimatedOut slippageBps amountIn : Int)
        (a2b : Bool),
        0 ≤ slippageBps → slippageBps ≤ 10000 →
        0 < (estimatedOut * (10000 - slippageBps)).tdiv 10000 →
        Composer.appendCetusSwapStep steps estimatedOut (some slippageBps)
          amountIn a2b =
          .ok (steps ++
            [Composer.PTBStep.swap
              { amountIn := amountIn
                amountLimit := (estimatedOut * (10000 - slippageBps)).tdiv 10000
                a2b := a2b }])) := by
  refine ⟨?_, ?_, ?_⟩
  · intro steps est slip amountIn a2b h
    simp [Composer.appendCetusSwapStep, Composer.applySlippageBps, h]
  · intro steps est slip amountIn a2b h0 h1 hle
    have hvalid : ¬ (slip < 0 ∨ slip > 10000) := by omega
    simp [Composer.appendCetusSwapStep, Composer.applySlippageBps, hvalid, hle]
  · intro steps est slip amountIn a2b h0 h1 hpos
    have hvalid : ¬ (slip < 0 ∨ slip > 10000) := by omega
    have hgt : ¬ (est * (10000 - slip)).tdiv 10000 ≤ 0 := by omega
    simp [Composer.appendCetusSwapStep, Composer.applySlippageBps, hvalid, hgt]

/-- C6 witness: slippage 10001 bps is rejected; a zero quote with 1%% (100
bps) slippage makes minOut 0 and is rejected; quote 1_000_000 with 100 bps
appends one swap constrained by 990_000. -/
theorem swap_min_out_spec_witness :
    Composer.appendCetusSwapStep [] 1000000 (some 10001) 500 true =
      .error "Invalid slippageBps" ∧
    Composer.appendCetusSwapStep [] 0 (some 100) 500 true =
      .error "Computed minOut is <= 0" ∧
    Composer.appendCetusSwapStep [] 1000000 (some 100) 500 true =
      .ok [Composer.PTBStep.swap
            { amountIn := 500
              amountLimit := ((1000000 : Int) * (10000 - 100)).tdiv 10000
              a2b := true }] :=
  ⟨swap_min_out_spec.1 [] 1000000 10001 500 true (by decide),
   swap_min_out_spec.2.1 [] 0 100 500 true (by decide) (by decide) (by decide),
   swap_min_out_spec.2.2 [] 1000000 100 500 true (by decide) (by decide)
     (by decide)⟩

/-! ## Claim C9 — error classifier patterns -/

/-- C9 counterexample: the classifier tests "Insufficient" before
"NotReady" and "network" before "paused", so the universally quantified
claim fails: the message "Insufficient gas: NotReadyYet" contains
"NotReadyYet" yet classifies as InsufficientGas, and
"network check while paused" contains "paused" yet classifies as Network. -/
theorem classifyError_priority_counterexample :
    Relayer.includes "Insufficient gas: NotReadyYet" "NotReadyYet" = true ∧
    Relayer.classifyError "Insufficient gas: NotReadyYet" =
      Relayer.ErrorKind.insufficientGas ∧
    Relayer.classifyError "Insufficient gas: NotReadyYet" ≠
      Relayer.ErrorKind.timeNotReady ∧
    Relayer.includes "network check while paused" "paused" = true ∧
    Relayer.classifyError "network check while paused" =
      Relayer.ErrorKind.network ∧
    Relayer.classifyError "network check while paused" ≠
      Relayer.ErrorKind.contractPaused := by
  decide

/-- C9 amended: a message containing "NotReadyYet" but none of the patterns
tested earlier in the chain ("Insufficient", "network", "Network",
"not found", "object not found") classifies as TimeNotReady, and a message
containing "paused" but none of the earlier patterns (additionally
"NotReady"/"NotReadyYet") classifies as ContractPaused. -/
theorem classifyError_priority_spec (message : String) :
    (Relayer.includes message "NotReadyYet" = true →
     Relayer.includes message "Insufficient" = false →
     Relayer.includes message "network" = false →
     Relayer.includes message "Network" = false →
     Relayer.includes message "not found" = false →
     Relayer.includes message "object not found" = false →
     Relayer.classifyError message = Relayer.ErrorKind.timeNotReady) ∧
    (Relayer.includes message "paused" = true →
     Relayer.includes message "Insufficient" = false →
     Relayer.includes message "network" = false →
     Relayer.includes message "Network" = false →
     Relayer.includes message "not found" = false →
     Relayer.includes message "object not found" = false →
     Relayer.includes message "NotReady" = false →
     Relayer.includes message "NotReadyYet" = false →
     Relayer.classifyError message = Relayer.ErrorKind.contractPaused) := by
  constructor
  · intro h1 h2 h3 h4 h5 h6
    simp [Relayer.classifyError, h1, h2, h3, h4, h5, h6]
  · intro h1 h2 h3 h4 h5 h6 h7 h8
    simp [Relayer.classifyError, h1, h2, h3, h4, h5, h6, h7, h8]

/-- C9 witness: "MoveAbort NotReadyYet" classifies as TimeNotReady and
"contract is paused" classifies as ContractPaused. -/
theorem classifyError_priority_spec_witness :
    Relayer.classifyError "MoveAbort NotReadyYet" =
      Relayer.ErrorKind.timeNotReady ∧
    Relayer.classifyError "contract is paused" =
      Relayer.ErrorKind.contractPaused :=
  ⟨(classifyError_priority_spec "MoveAbort NotReadyYet").1
     (by decide) (by decide) (by decide) (by decide) (by decide) (by decide),
   (classifyError_priority_spec "contract is paused").2
     (by decide) (by decide) (by decide) (by decide) (by decide) (by decide)
     (by decide) (by decide)⟩

/-! ## Claim C8 — at most one pending retry timer per task id -/

/-- In an association list with distinct keys, at most one entry matches a
given key (under any further predicate). -/
theorem filter_key_length_le_one {β : Type} (l : List (String × β)) (k : String)
    (q : String × β → Bool) (hnd : (l.map Prod.fst).Nodup) :
    (l.filter (fun p => p.1 == k && q p)).length ≤ 1 := by
  induction l with
  | nil => simp
  | cons a t ih =>
    simp only [List.map_cons, List.nodup_cons] at hnd
    obtain ⟨hka, hndt⟩ := hnd
    by_cases hak : (a.1 == k && q a) = true
    · have hk : a.1 = k := beq_iff_eq.mp ((Bool.and_eq_true _ _).mp hak).1
      have hempty : t.filter (fun p => p.1 == k && q p) = [] := by
        rw [List.filter_eq_nil_iff]
        intro p hp hpred
        have hpk : p.1 = k :=
          beq_iff_eq.mp ((Bool.and_eq_true _ _).mp hpred).1
        exact hka (hk ▸ hpk ▸ List.mem_map_of_mem Prod.fst hp)
      simp [List.filter_cons, hak, hempty]
    · simp only [List.filter_cons, hak, if_false, Bool.false_eq_true]
      exact ih hndt

/-- `scheduleRetry` preserves well-formedness. -/
theorem queueInv_scheduleRetry {s : Relayer.QueueState} (h : Relayer.QueueInv s)
    (k : String) : Relayer.QueueInv (Relayer.scheduleRetry s k) := by
  have hsub : (s.timers.filter (fun p => p.1 != k)).Sublist s.timers :=
    List.filter_sublist s.timers
  have hclear : ∀ t ∈ (match Relayer.findTimer s.timers k with
      | some t => s.live.erase t
      | none => s.live), t ∈ s.live := by
    cases hf : Relayer.findTimer s.timers k with
    | some t0 => intro t ht; exact List.mem_of_mem_erase ht
    | none => intro t ht; exact ht
  constructor
  · simp only [Relayer.scheduleRetry, List.map_cons, List.nodup_cons]
    constructor
    · intro hmem
      obtain ⟨p, hp, hpk⟩ := List.mem_map.mp hmem
      have := List.of_mem_filter hp
      simp [hpk] at this
    · exact (hsub.map Prod.fst).nodup h.keysNodup
  · intro p hp
    simp only [Relayer.scheduleRetry, List.mem_cons] at hp
    rcases hp with hp | hp
    · subst hp; exact Nat.lt_succ_self _
    · exact Nat.lt_succ_of_lt (h.timersLt p (hsub.mem hp))
  · intro t ht
    simp only [Relayer.scheduleRetry, List.mem_cons] at ht
    rcases ht with ht | ht
    · subst ht; exact Nat.lt_succ_self _
    · exact Nat.lt_succ_of_lt (h.liveLt t (hclear t ht))
  · simp only [Relayer.scheduleRetry, List.nodup_cons]
    constructor
    · intro hmem
      exact absurd (h.liveLt _ (hclear _ hmem)) (Nat.lt_irrefl _)
    · cases hf : Relayer.findTimer s.timers k with
      | some t0 => exact h.liveNodup.erase t0
      | none => exact h.liveNodup

/-- `cancelRetry` preserves well-formedness. -/
theorem queueInv_cancelRetry {s : Relayer.QueueState} (h : Relayer.QueueInv s)
    (k : String) : Relayer.QueueInv (Relayer.cancelRetry s k) := by
  unfold Relayer.cancelRetry
  cases hf : Relayer.findTimer s.timers k with
  | none => exact h
  | some t0 =>
    have hsub : (s.timers.filter (fun p => p.1 != k)).Sublist s.timers :=
      List.filter_sublist s.timers
    constructor
    · exact (hsub.map Prod.fst).nodup h.keysNodup
    · intro p hp; exact h.timersLt p (hsub.mem hp)
    · intro t ht; exact h.liveLt t (List.mem_of_mem_erase ht)
    · exact h.liveNodup.erase t0

/-- Every state reachable by a sequence of schedule/cancel operations from
the initial state is well-formed. -/
theorem queueInv_runOps (ops : List Relayer.QueueOp) :
    Relayer.QueueInv (Relayer.runOps ops) := by
  have hgen : ∀ (l : List Relayer.QueueOp) (s : Relayer.QueueState),
      Relayer.QueueInv s → Relayer.QueueInv (l.foldl Relayer.applyOp s) := by
    intro l
    induction l with
    | nil => intro s hs; exact hs
    | cons op t ih =>
      intro s hs
      apply ih
      cases op with
      | schedule k => exact queueInv_scheduleRetry hs k
      | cancel k => exact queueInv_cancelRetry hs k
  apply hgen
  exact ⟨List.nodup_nil, (by intro p hp; cases hp), (by intro t ht; cases ht),
         List.nodup_nil⟩

/-- C8: after any sequence of `scheduleRetry`/`cancelRetry` calls the queue
holds at most one pending timer per task id, and scheduling for an id that
already has a stored timer cancels that timer (it is no longer live) and
replaces it with the freshly allocated one. -/
theorem retry_queue_unique_timer :
    (∀ (ops : List Relayer.QueueOp) (taskId : String),
        (Relayer.pendingTimers (Relayer.runOps ops) taskId).length ≤ 1) ∧
    (∀ (ops : List Relayer.QueueOp) (taskId : String) (t : Nat),
        Relayer.findTimer (Relayer.runOps ops).timers taskId = some t →
        t ∉ (Relayer.scheduleRetry (Relayer.runOps ops) taskId).live ∧
        Relayer.findTimer (Relayer.scheduleRetry (Relayer.runOps ops) taskId).timers
          taskId = some (Relayer.runOps ops).nextTimer ∧
        (Relayer.runOps ops).nextTimer ∈
          (Relayer.scheduleRetry (Relayer.runOps ops) taskId).live) := by
  constructor
  · intro ops taskId
    have hinv := queueInv_runOps ops
    unfold Relayer.pendingTimers
    rw [List.length_map]
    exact filter_key_length_le_one _ taskId _ hinv.keysNodup
  · intro ops taskId t hfind
    have hinv := queueInv_runOps ops
    have hlt : t < (Relayer.runOps ops).nextTimer := by
      unfold Relayer.findTimer at hfind
      cases hf : (Relayer.runOps ops).timers.find? (fun p => p.1 == taskId) with
      | none => rw [hf] at hfind; cases hfind
      | some p =>
        rw [hf] at hfind
        have hp := List.mem_of_find?_eq_some hf
        have hpt : p.2 = t := by simpa using hfind
        exact hpt ▸ hinv.timersLt p hp
    refine ⟨?_, ?_, ?_⟩
    · simp only [Relayer.scheduleRetry, hfind, List.mem_cons]
      rintro (h | h)
      · omega
      · exact hinv.liveNodup.not_mem_erase h
    · simp [Relayer.scheduleRetry, hfind, Relayer.findTimer, List.find?]
    · simp [Relayer.scheduleRetry, hfind]

/-- C8 witness: scheduling twice for the same id leaves exactly one pending
timer, and the second schedule cancels timer 0 and replaces it with
timer 1. -/
theorem retry_queue_unique_timer_witness :
    (Relayer.pendingTimers
      (Relayer.runOps [Relayer.QueueOp.schedule "a", Relayer.QueueOp.schedule "a"])
      "a").length ≤ 1 ∧
    (0 ∉ (Relayer.scheduleRetry
        (Relayer.runOps [Relayer.QueueOp.schedule "a"]) "a").live ∧
     Relayer.findTimer (Relayer.scheduleRetry
        (Relayer.runOps [Relayer.QueueOp.schedule "a"]) "a").timers "a" =
       some (Relayer.runOps [Relayer.QueueOp.schedule "a"]).nextTimer ∧
     (Relayer.runOps [Relayer.QueueOp.schedule "a"]).nextTimer ∈
       (Relayer.scheduleRetry
         (Relayer.runOps [Relayer.QueueOp.schedule "a"]) "a").live) :=
  ⟨retry_queue_unique_timer.1
     [Relayer.QueueOp.schedule "a", Relayer.QueueOp.schedule "a"] "a",
   retry_queue_unique_timer.2 [Relayer.QueueOp.schedule "a"] "a" 0 rfl⟩
